import Mathlib

/-
Verification of the binary Twist wire protocol and its client-side state
machines (clock synchronizer, statistics window), shallowly embedded from
`python-client/twist_protocol.py` and `python-client/main.py`.

Modelling conventions:
 - a byte buffer is a `List Nat` whose elements are the byte values;
 - `struct.pack`/`struct.unpack` little-endian integer fields become
   `leBytes`/`leVal` below;
 - an IEEE-754 double (`d` in a struct format) is carried as its 64-bit
   bit pattern (a `Nat` below 2^64): `struct.pack` writes exactly the
   8 little-endian bytes of that pattern, so at the byte level the `d`
   and `Q` fields have identical layouts, and for finite doubles Python
   equality coincides with bit-pattern equality up to the sign of zero,
   which a byte-exact round trip preserves anyway;
 - Python `raise ValueError` in decode becomes `Except DecodeError`,
   with the two message families mapped to `TruncatedFrame` (length
   check) and `TypeMismatch` (leading-tag check);
 - clock offsets (`/ 2` of an integer sum in Python, a float) are
   carried exactly as rationals; round-trip times stay integers.
-/

namespace TwistWS

/-! Byte-level primitives. -/

/-- `leBytes k n` is the `k`-byte little-endian encoding of `n`,
matching `struct.pack` of an unsigned integer field. -/
def leBytes : Nat → Nat → List Nat
  | 0, _ => []
  | k + 1, n => n % 256 :: leBytes k (n / 256)

/-- `leVal k l` reads a `k`-byte little-endian unsigned integer from the
front of `l`, matching `struct.unpack` of an unsigned integer field. -/
def leVal : Nat → List Nat → Nat
  | 0, _ => 0
  | k + 1, l => l.headD 0 + 256 * leVal k l.tail

/-! Wire-layout constants, from `twist_protocol.py`. -/

/-- The exclusive upper bound of a wire u64 field (`2 ^ 64`). -/
def U64 : Nat := 2 ^ 64

/-- The exclusive upper bound of a wire u32 field (`2 ^ 32`). -/
def U32 : Nat := 2 ^ 32

def TWIST_BROWSER_SIZE : Nat := 65
def TWIST_RELAY_SIZE : Nat := 81
def TWIST_ACK_PYTHON_SIZE : Nat := 69
def TWIST_ACK_BROWSER_SIZE : Nat := 77
def CLOCK_SYNC_REQUEST_SIZE : Nat := 9
def CLOCK_SYNC_RESPONSE_SIZE : Nat := 25

/-- The two decode failure families of `twist_protocol.py`: the
length-check `ValueError` ("Expected at least N bytes") and the
leading-tag `ValueError` ("Expected ..., got ..."). -/
inductive DecodeError where
  | TruncatedFrame
  | TypeMismatch
deriving DecidableEq, Repr

instance {ε α : Type} [DecidableEq ε] [DecidableEq α] : DecidableEq (Except ε α) := fun a b =>
  match a, b with
  | .ok x, .ok y => decidable_of_iff (x = y) (by simp)
  | .error e, .error f => decidable_of_iff (e = f) (by simp)
  | .ok _, .error _ => isFalse (by simp)
  | .error _, .ok _ => isFalse (by simp)

/-- `LatencyTimestamps` from `twist_protocol.py`: per-hop timestamps
(ms, 64-bit on the wire) and consumer durations (us, 32-bit on the
wire), all defaulting to 0. -/
structure LatencyTimestamps where
  t1_browser_send : Nat := 0
  t2_relay_rx : Nat := 0
  t3_relay_tx : Nat := 0
  t4_relay_ack_rx : Nat := 0
  t5_relay_ack_tx : Nat := 0
  t3_python_rx : Nat := 0
  t4_python_ack : Nat := 0
  python_decode_us : Nat := 0
  python_process_us : Nat := 0
  python_encode_us : Nat := 0
deriving DecidableEq, Repr

/-- `TwistWithLatency` from `twist_protocol.py`.  The six velocity
fields hold the 64-bit IEEE-754 bit patterns of the Python doubles. -/
structure TwistWithLatency where
  linear_x : Nat := 0
  linear_y : Nat := 0
  linear_z : Nat := 0
  angular_x : Nat := 0
  angular_y : Nat := 0
  angular_z : Nat := 0
  message_id : Nat := 0
  timestamps : LatencyTimestamps := {}
deriving DecidableEq, Repr

/-- `TwistWithLatency.encode`: `struct.pack('<BQQ6d', 0x01, message_id,
t1_browser_send, linear_x .. angular_z)`, 65 bytes. -/
def TwistWithLatency.encode (t : TwistWithLatency) : List Nat :=
  0x01 :: (leBytes 8 t.message_id ++ (leBytes 8 t.timestamps.t1_browser_send ++
    (leBytes 8 t.linear_x ++ (leBytes 8 t.linear_y ++ (leBytes 8 t.linear_z ++
    (leBytes 8 t.angular_x ++ (leBytes 8 t.angular_y ++ leBytes 8 t.angular_z)))))))

/-- `TwistWithLatency.decode`: length check, tag check, then
`struct.unpack` of either `'<BQQ6d2Q'` (length >= 81) or `'<BQQ6d'`
(length >= 65).  The sequential reads below consume the buffer exactly
as `struct.unpack` walks its fixed offsets. -/
def TwistWithLatency.decode (data : List Nat) : Except DecodeError TwistWithLatency :=
  if data.length < TWIST_BROWSER_SIZE then .error .TruncatedFrame
  else if data.headD 0 ≠ 0x01 then .error .TypeMismatch
  else
    let r0 := data.drop 1
    let msg := leVal 8 r0
    let r1 := r0.drop 8
    let t1 := leVal 8 r1
    let r2 := r1.drop 8
    let lx := leVal 8 r2
    let r3 := r2.drop 8
    let ly := leVal 8 r3
    let r4 := r3.drop 8
    let lz := leVal 8 r4
    let r5 := r4.drop 8
    let ax := leVal 8 r5
    let r6 := r5.drop 8
    let ay := leVal 8 r6
    let r7 := r6.drop 8
    let az := leVal 8 r7
    if TWIST_RELAY_SIZE ≤ data.length then
      let r8 := r7.drop 8
      let r9 := r8.drop 8
      .ok { message_id := msg,
            timestamps := { t1_browser_send := t1,
                            t2_relay_rx := leVal 8 r8,
                            t3_relay_tx := leVal 8 r9 },
            linear_x := lx, linear_y := ly, linear_z := lz,
            angular_x := ax, angular_y := ay, angular_z := az }
    else
      .ok { message_id := msg,
            timestamps := { t1_browser_send := t1 },
            linear_x := lx, linear_y := ly, linear_z := lz,
            angular_x := ax, angular_y := ay, angular_z := az }

/-- `TwistAck` from `twist_protocol.py`. -/
structure TwistAck where
  message_id : Nat
  timestamps : LatencyTimestamps
deriving DecidableEq, Repr

/-- `TwistAck.encode`: `struct.pack('<BQ5Q3IQ', 0x02, message_id, t1,
t2_relay_rx, t3_relay_tx, t3_python_rx, t4_python_ack, decode_us,
process_us, encode_us, 0)`, 69 bytes; the final u64 (the slot reserved
for `t4_relay_ack_rx`) is always written as 0. -/
def TwistAck.encode (a : TwistAck) : List Nat :=
  0x02 :: (leBytes 8 a.message_id ++ (leBytes 8 a.timestamps.t1_browser_send ++
    (leBytes 8 a.timestamps.t2_relay_rx ++ (leBytes 8 a.timestamps.t3_relay_tx ++
    (leBytes 8 a.timestamps.t3_python_rx ++ (leBytes 8 a.timestamps.t4_python_ack ++
    (leBytes 4 a.timestamps.python_decode_us ++ (leBytes 4 a.timestamps.python_process_us ++
    (leBytes 4 a.timestamps.python_encode_us ++ leBytes 8 0)))))))))

/-- `TwistAck.decode`: length check, tag check, `struct.unpack` of
`'<BQ5Q3IQ'` giving `values[0..10]`, then field assignment exactly as
in the source: `t1_browser_send=values[1]`, `t2_relay_rx=values[2]`,
`t3_relay_tx=values[3]`, `t3_python_rx=values[4]`,
`t4_python_ack=values[5]`, `python_decode_us=values[6]`,
`python_process_us=values[7]`, `python_encode_us=values[8]`,
`t4_relay_ack_rx=values[9]`, `message_id=values[1]` (`values[10]`, the
wire's reserved u64 at offset 61, is never used), and the appended
`t5_relay_ack_tx` from bytes 69..76 when the buffer reaches 77 bytes.
Note `values[1]` is the wire's message id (offset 1), `values[2]` the
wire's t1 (offset 9), and so on: each assignment reads the slot one
field earlier than its name on the wire. -/
def TwistAck.decode (data : List Nat) : Except DecodeError TwistAck :=
  if data.length < TWIST_ACK_PYTHON_SIZE then .error .TruncatedFrame
  else if data.headD 0 ≠ 0x02 then .error .TypeMismatch
  else
    let r0 := data.drop 1
    let v1 := leVal 8 r0
    let r1 := r0.drop 8
    let v2 := leVal 8 r1
    let r2 := r1.drop 8
    let v3 := leVal 8 r2
    let r3 := r2.drop 8
    let v4 := leVal 8 r3
    let r4 := r3.drop 8
    let v5 := leVal 8 r4
    let r5 := r4.drop 8
    let v6 := leVal 8 r5
    let r6 := r5.drop 8
    let v7 := leVal 4 r6
    let r7 := r6.drop 4
    let v8 := leVal 4 r7
    let r8 := r7.drop 4
    let v9 := leVal 4 r8
    let t5 := if TWIST_ACK_BROWSER_SIZE ≤ data.length then leVal 8 (data.drop 69) else 0
    .ok { message_id := v1,
          timestamps := { t1_browser_send := v1,
                          t2_relay_rx := v2,
                          t3_relay_tx := v3,
                          t3_python_rx := v4,
                          t4_python_ack := v5,
                          python_decode_us := v6,
                          python_process_us := v7,
                          python_encode_us := v8,
                          t4_relay_ack_rx := v9,
                          t5_relay_ack_tx := t5 } }

/-- `ClockSyncRequest` from `twist_protocol.py` (9-byte frame). -/
structure ClockSyncRequest where
  t1 : Nat
deriving DecidableEq, Repr

def ClockSyncRequest.encode (r : ClockSyncRequest) : List Nat :=
  0x03 :: leBytes 8 r.t1

/-- `ClockSyncRequest.decode`: only the length is checked; the leading
byte is unpacked into `values[0]` and then ignored. -/
def ClockSyncRequest.decode (data : List Nat) : Except DecodeError ClockSyncRequest :=
  if data.length < CLOCK_SYNC_REQUEST_SIZE then .error .TruncatedFrame
  else .ok { t1 := leVal 8 (data.drop 1) }

/-- `ClockSyncResponse` from `twist_protocol.py` (25-byte frame). -/
structure ClockSyncResponse where
  t1 : Nat
  t2 : Nat
  t3 : Nat
deriving DecidableEq, Repr

def ClockSyncResponse.encode (r : ClockSyncResponse) : List Nat :=
  0x04 :: (leBytes 8 r.t1 ++ (leBytes 8 r.t2 ++ leBytes 8 r.t3))

/-- `ClockSyncResponse.decode`: only the length is checked; the leading
byte is unpacked into `values[0]` and then ignored. -/
def ClockSyncResponse.decode (data : List Nat) : Except DecodeError ClockSyncResponse :=
  if data.length < CLOCK_SYNC_RESPONSE_SIZE then .error .TruncatedFrame
  else
    let r0 := data.drop 1
    let r1 := r0.drop 8
    let r2 := r1.drop 8
    .ok { t1 := leVal 8 r0, t2 := leVal 8 r1, t3 := leVal 8 r2 }

/-! Clock synchronizer, from `ClockSync` in `main.py`.  Timestamps are
integers (milliseconds); an offset sample is `((t2-t1)+(t3-t4))/2`, a
Python float division of an integer sum by 2, carried here exactly as a
rational; an rtt sample is pure integer arithmetic. -/

/-- `rtt = (t4 - t1) - (t3 - t2)` from `ClockSync.process`. -/
def rttSample (t1 t2 t3 t4 : Int) : Int := (t4 - t1) - (t3 - t2)

/-- `offset = ((t2 - t1) + (t3 - t4)) / 2` from `ClockSync.process`. -/
def offsetSample (t1 t2 t3 t4 : Int) : ℚ := (((t2 - t1) + (t3 - t4) : Int) : ℚ) / 2

/-- State of `ClockSync` in `main.py`: the two bounded sample lists,
the capacity `_max`, and the derived medians `offset` and `rtt`. -/
structure ClockSync where
  offsets : List ℚ := []
  rtts : List Int := []
  max : Nat := 10
  offset : ℚ := 0
  rtt : Int := 0
deriving DecidableEq, Repr

/-- `ClockSync.__init__(samples=10)`. -/
def ClockSync.init (samples : Nat := 10) : ClockSync := { max := samples }

/-- `ClockSync.process(t1, t2, t3, t4)`: append the new sample to both
lists, pop the oldest pair when `len > _max`, recompute `offset` and
`rtt` as `sorted(list)[len(list) // 2]`, and return
`(self.offset, rtt)` — the stored median offset paired with this
sample's raw rtt. -/
def ClockSync.process (s : ClockSync) (t1 t2 t3 t4 : Int) : ClockSync × ℚ × Int :=
  let rtt := rttSample t1 t2 t3 t4
  let off := offsetSample t1 t2 t3 t4
  let offs1 := s.offsets ++ [off]
  let rtts1 := s.rtts ++ [rtt]
  let offs2 := if s.max < offs1.length then offs1.drop 1 else offs1
  let rtts2 := if s.max < offs1.length then rtts1.drop 1 else rtts1
  let newOff := (offs2.insertionSort (· ≤ ·)).getD (offs2.length / 2) 0
  let newRtt := (rtts2.insertionSort (· ≤ ·)).getD (rtts2.length / 2) 0
  ({ s with offsets := offs2, rtts := rtts2, offset := newOff, rtt := newRtt },
   (newOff, rtt))

/-- `ClockSync.synced`: `len(self._offsets) >= 3`. -/
def ClockSync.synced (s : ClockSync) : Bool := 3 ≤ s.offsets.length

/-- Fold `ClockSync.process` over a list of `(t1, t2, t3, t4)` calls. -/
def runSync (s : ClockSync) (calls : List (Int × Int × Int × Int)) : ClockSync :=
  calls.foldl (fun st c => (st.process c.1 c.2.1 c.2.2.1 c.2.2.2).1) s

/-- The selection `sorted(l)[len(l) // 2]` that `ClockSync.process`
stores: integer-index selection on a sorted copy, which for an
even-count list picks the upper of the two middle elements. -/
def medianQ (l : List ℚ) : ℚ := (l.insertionSort (· ≤ ·)).getD (l.length / 2) 0

/-- Integer counterpart of `medianQ`, for the rtt samples. -/
def medianI (l : List Int) : Int := (l.insertionSort (· ≤ ·)).getD (l.length / 2) 0

/-- Modelled from the spec: "the median of an even-count sequence uses
the lower-middle element ... integer-index selection on a sorted copy".
The lower-middle of a sorted even-count list is index `(n - 1) / 2`
(equal to `n / 2` for odd `n`). -/
def specLowerMedian (l : List ℚ) : ℚ :=
  (l.insertionSort (· ≤ ·)).getD ((l.length - 1) / 2) 0

/-! Stats aggregator, from `Stats` in `main.py`.  The four
`deque(maxlen=window)` sequences are lists that keep only their last
`window` elements; values are carried as rationals (the recorded
latencies and microsecond durations are Python numbers). -/

/-- `deque(maxlen=W).append x`: append, then discard from the front
whatever exceeds the capacity `W`. -/
def pushWin (W : Nat) (l : List ℚ) (x : ℚ) : List ℚ :=
  if W < l.length + 1 then (l ++ [x]).drop (l.length + 1 - W) else l ++ [x]

/-- State of `Stats` in `main.py`. -/
structure Stats where
  window : Nat := 100
  latencies : List ℚ := []
  decode_us : List ℚ := []
  process_us : List ℚ := []
  encode_us : List ℚ := []
  rx_count : Nat := 0
  ack_count : Nat := 0
deriving DecidableEq, Repr

/-- `Stats.__init__(window=100)`. -/
def Stats.init (window : Nat := 100) : Stats := { window := window }

/-- `Stats.record(latency_ms, decode_us, process_us, encode_us)`:
append the latency only when non-negative, append the three durations
unconditionally, increment `rx_count`. -/
def Stats.record (s : Stats) (latency_ms decode_us process_us encode_us : ℚ) : Stats :=
  { s with
    latencies := if 0 ≤ latency_ms then pushWin s.window s.latencies latency_ms
                 else s.latencies,
    decode_us := pushWin s.window s.decode_us decode_us,
    process_us := pushWin s.window s.process_us process_us,
    encode_us := pushWin s.window s.encode_us encode_us,
    rx_count := s.rx_count + 1 }

/-- `Stats.avg(d)`: `sum(d) / len(d) if d else 0`. -/
def Stats.avg (l : List ℚ) : ℚ := if l = [] then 0 else l.sum / (l.length : ℚ)

/-- Fold `Stats.record` over `(latency, decode, process, encode)` records. -/
def runStats (s : Stats) (recs : List (ℚ × ℚ × ℚ × ℚ)) : Stats :=
  recs.foldl (fun st r => st.record r.1 r.2.1 r.2.2.1 r.2.2.2) s

/-- The suffix of at most `W` elements a capacity-`W` window retains. -/
def lastN (W : Nat) (l : List ℚ) : List ℚ := l.drop (l.length - W)

/-! Concrete inputs used by witnesses and evaluations. -/

/-- The acknowledgment of the module self-test in `twist_protocol.py`. -/
def ackSample : TwistAck :=
  { message_id := 7,
    timestamps := { t1_browser_send := 1000, t2_relay_rx := 1005,
                    t3_relay_tx := 1006, t3_python_rx := 1010,
                    t4_python_ack := 1015, python_decode_us := 50,
                    python_process_us := 100, python_encode_us := 30 } }

/-- A hand-built 69-byte CommandAck frame whose `encode_us` slot (bytes
57-60) holds 9 and whose reserved slot (bytes 61-68) holds 5555. -/
def ackRawBuf : List Nat :=
  0x02 :: (leBytes 8 1 ++ (leBytes 8 2 ++ (leBytes 8 3 ++ (leBytes 8 4 ++
    (leBytes 8 5 ++ (leBytes 8 6 ++ (leBytes 4 7 ++ (leBytes 4 8 ++
    (leBytes 4 9 ++ leBytes 8 5555)))))))))

/-- A 70-byte Command frame: a 65-byte encoding plus 5 stray bytes. -/
def wd70 : List Nat :=
  TwistWithLatency.encode { message_id := 3, timestamps := { t1_browser_send := 4 } } ++
    [9, 9, 9, 9, 9]

/-- An 81-byte Command frame: a 65-byte encoding plus the 16-byte relay
extension carrying `t2 = 11` and `t3 = 12`. -/
def wd81 : List Nat :=
  TwistWithLatency.encode { message_id := 3, timestamps := { t1_browser_send := 4 } } ++
    (leBytes 8 11 ++ leBytes 8 12)

/-! Helper lemmas about the byte-level primitives. -/

@[simp] theorem length_leBytes (k n : Nat) : (leBytes k n).length = k := by
  induction k generalizing n with
  | zero => rfl
  | succ k ih => simp [leBytes, ih]

theorem leVal_leBytes_append (k n : Nat) (rest : List Nat) :
    leVal k (leBytes k n ++ rest) = n % 256 ^ k := by
  induction k generalizing n with
  | zero => simp [leVal, leBytes, Nat.mod_one]
  | succ k ih =>
    simp only [leBytes, leVal, List.cons_append, List.headD_cons, List.tail_cons, ih]
    rw [pow_succ']
    exact (Nat.mod_mul).symm

theorem drop_leBytes_append (k n : Nat) (rest : List Nat) :
    (leBytes k n ++ rest).drop k = rest := by
  apply List.drop_left'
  simp

@[simp] theorem leVal8_leBytes8 (n : Nat) (rest : List Nat) (h : n < U64) :
    leVal 8 (leBytes 8 n ++ rest) = n := by
  rw [leVal_leBytes_append, Nat.mod_eq_of_lt (by norm_num [U64] at h ⊢; omega)]

@[simp] theorem leVal8_leBytes8_nil (n : Nat) (h : n < U64) :
    leVal 8 (leBytes 8 n) = n := by
  have := leVal8_leBytes8 n [] h
  simpa using this

@[simp] theorem leVal4_leBytes4 (n : Nat) (rest : List Nat) (h : n < U32) :
    leVal 4 (leBytes 4 n ++ rest) = n := by
  rw [leVal_leBytes_append, Nat.mod_eq_of_lt (by norm_num [U32] at h ⊢; omega)]

@[simp] theorem drop8_leBytes8 (n : Nat) (rest : List Nat) :
    (leBytes 8 n ++ rest).drop 8 = rest := drop_leBytes_append 8 n rest

@[simp] theorem drop4_leBytes4 (n : Nat) (rest : List Nat) :
    (leBytes 4 n ++ rest).drop 4 = rest := drop_leBytes_append 4 n rest

@[simp] theorem drop_one_cons (a : Nat) (l : List Nat) : (a :: l).drop 1 = l := rfl

@[simp] theorem leVal_take8 (m : Nat) (l : List Nat) (h : 8 ≤ m) :
    leVal 8 (l.take m) = leVal 8 l := by
  suffices H : ∀ (k m : Nat) (l : List Nat), k ≤ m → leVal k (l.take m) = leVal k l from
    H 8 m l h
  intro k
  induction k with
  | zero => intro m l _; rfl
  | succ k ih =>
    intro m l hkm
    cases m with
    | zero => omega
    | succ m =>
      cases l with
      | nil => simp
      | cons a l =>
        simp only [List.take_succ_cons, leVal, List.headD_cons, List.tail_cons]
        rw [ih m l (by omega)]

theorem headD_take (n : Nat) (l : List Nat) (d : Nat) (h : 0 < n) :
    (l.take n).headD d = l.headD d := by
  cases n with
  | zero => omega
  | succ n => cases l <;> simp

/-! Helper lemmas about the clock synchronizer. -/

theorem process_fst_max (s : ClockSync) (t1 t2 t3 t4 : Int) :
    ((s.process t1 t2 t3 t4).1).max = s.max := rfl

theorem process_fst_offsets_length (s : ClockSync) (t1 t2 t3 t4 : Int)
    (h : s.offsets.length ≤ s.max) :
    ((s.process t1 t2 t3 t4).1).offsets.length = min (s.offsets.length + 1) s.max := by
  simp only [ClockSync.process]
  split <;> rename_i h' <;>
    simp only [List.length_drop, List.length_append, List.length_cons,
      List.length_nil] at h' ⊢ <;>
    omega

theorem runSync_cons (s : ClockSync) (c : Int × Int × Int × Int)
    (cs : List (Int × Int × Int × Int)) :
    runSync s (c :: cs) = runSync ((s.process c.1 c.2.1 c.2.2.1 c.2.2.2).1) cs := rfl

theorem runSync_append (s : ClockSync) (a b : List (Int × Int × Int × Int)) :
    runSync s (a ++ b) = runSync (runSync s a) b := by
  simp [runSync]

theorem runSync_offsets_length (calls : List (Int × Int × Int × Int)) (s : ClockSync)
    (h : s.offsets.length ≤ s.max) :
    (runSync s calls).offsets.length = min (s.offsets.length + calls.length) s.max := by
  induction calls generalizing s with
  | nil => simp [runSync]; omega
  | cons c cs ih =>
    rw [runSync_cons]
    have h1 := process_fst_offsets_length s c.1 c.2.1 c.2.2.1 c.2.2.2 h
    have h2 := process_fst_max s c.1 c.2.1 c.2.2.1 c.2.2.2
    have h3 : ((s.process c.1 c.2.1 c.2.2.1 c.2.2.2).1).offsets.length ≤
        ((s.process c.1 c.2.1 c.2.2.1 c.2.2.2).1).max := by
      rw [h1, h2]; omega
    rw [ih _ h3, h1, h2]
    simp only [List.length_cons]
    omega

/-! Helper lemmas about the stats aggregator. -/

theorem record_window (s : Stats) (a b c d : ℚ) : (s.record a b c d).window = s.window := rfl

theorem runStats_cons (s : Stats) (r : ℚ × ℚ × ℚ × ℚ) (rs : List (ℚ × ℚ × ℚ × ℚ)) :
    runStats s (r :: rs) = runStats (s.record r.1 r.2.1 r.2.2.1 r.2.2.2) rs := rfl

theorem runStats_rx_count (recs : List (ℚ × ℚ × ℚ × ℚ)) (s : Stats) :
    (runStats s recs).rx_count = s.rx_count + recs.length := by
  induction recs generalizing s with
  | nil => simp [runStats]
  | cons r rs ih =>
    rw [runStats_cons, ih]
    simp [Stats.record]
    omega

theorem runStats_decode_us (recs : List (ℚ × ℚ × ℚ × ℚ)) (s : Stats) :
    (runStats s recs).decode_us =
      (recs.map fun r => r.2.1).foldl (pushWin s.window) s.decode_us := by
  induction recs generalizing s with
  | nil => simp [runStats]
  | cons r rs ih =>
    rw [runStats_cons, ih]
    simp [Stats.record]

theorem runStats_process_us (recs : List (ℚ × ℚ × ℚ × ℚ)) (s : Stats) :
    (runStats s recs).process_us =
      (recs.map fun r => r.2.2.1).foldl (pushWin s.window) s.process_us := by
  induction recs generalizing s with
  | nil => simp [runStats]
  | cons r rs ih =>
    rw [runStats_cons, ih]
    simp [Stats.record]

theorem runStats_encode_us (recs : List (ℚ × ℚ × ℚ × ℚ)) (s : Stats) :
    (runStats s recs).encode_us =
      (recs.map fun r => r.2.2.2).foldl (pushWin s.window) s.encode_us := by
  induction recs generalizing s with
  | nil => simp [runStats]
  | cons r rs ih =>
    rw [runStats_cons, ih]
    simp [Stats.record]

theorem runStats_latencies (recs : List (ℚ × ℚ × ℚ × ℚ)) (s : Stats) :
    (runStats s recs).latencies =
      ((recs.map fun r => r.1).filter fun q => decide (0 ≤ q)).foldl
        (pushWin s.window) s.latencies := by
  induction recs generalizing s with
  | nil => simp [runStats]
  | cons r rs ih =>
    rw [runStats_cons, ih]
    by_cases h : (0 : ℚ) ≤ r.1
    · simp [Stats.record, h]
    · simp [Stats.record, h]

theorem pushWin_lastN (W : Nat) (xs : List ℚ) (x : ℚ) :
    pushWin W (lastN W xs) x = lastN W (xs ++ [x]) := by
  rcases le_or_lt W xs.length with h | h
  · have hlen : (lastN W xs).length = W := by simp [lastN]; omega
    rcases Nat.eq_zero_or_pos W with hW | hW
    · subst hW
      have h1 : lastN 0 xs = [] := by simp [lastN, List.drop_eq_nil_of_le]
      have h2 : lastN 0 (xs ++ [x]) = [] := by simp [lastN, List.drop_eq_nil_of_le]
      rw [h1, h2]
      simp [pushWin]
    · unfold pushWin
      rw [hlen, if_pos (by omega)]
      have e1 : W + 1 - W = 1 := by omega
      rw [e1, List.drop_append_of_le_length (by omega)]
      unfold lastN
      rw [List.drop_drop]
      have e2 : (xs ++ [x]).length - W = xs.length - W + 1 := by simp; omega
      rw [e2, List.drop_append_of_le_length (by omega)]
  · unfold pushWin lastN
    have h0 : xs.length - W = 0 := by omega
    rw [h0, List.drop_zero, if_neg (by omega)]
    have h1 : (xs ++ [x]).length - W = 0 := by simp; omega
    rw [h1, List.drop_zero]

theorem foldl_pushWin (W : Nat) (xs : List ℚ) :
    xs.foldl (pushWin W) [] = lastN W xs := by
  induction xs using List.reverseRecOn with
  | nil => simp [lastN]
  | append_singleton ys y ih =>
    rw [List.foldl_append, List.foldl_cons, List.foldl_nil, ih, pushWin_lastN]

/-! Claim theorems. -/

/-- Claim C6: for every message kind, a buffer strictly shorter than
the kind's base size (65 / 69 / 9 / 25 bytes) is rejected with
`TruncatedFrame`, regardless of the buffer's contents. -/
theorem claim_C6 (data : List Nat) :
    (data.length < 65 → TwistWithLatency.decode data = .error .TruncatedFrame)
  ∧ (data.length < 69 → TwistAck.decode data = .error .TruncatedFrame)
  ∧ (data.length < 9 → ClockSyncRequest.decode data = .error .TruncatedFrame)
  ∧ (data.length < 25 → ClockSyncResponse.decode data = .error .TruncatedFrame) := by
  refine ⟨fun h => ?_, fun h => ?_, fun h => ?_, fun h => ?_⟩ <;>
    simp [TwistWithLatency.decode, TwistAck.decode, ClockSyncRequest.decode,
      ClockSyncResponse.decode, TWIST_BROWSER_SIZE, TWIST_ACK_PYTHON_SIZE,
      CLOCK_SYNC_REQUEST_SIZE, CLOCK_SYNC_RESPONSE_SIZE, h]

/-- Witness for C6 at the boundary lengths 64, 68, 8 and 24. -/
theorem claim_C6_witness :
    TwistWithLatency.decode (List.replicate 64 0) = .error .TruncatedFrame
  ∧ TwistAck.decode (List.replicate 68 0) = .error .TruncatedFrame
  ∧ ClockSyncRequest.decode (List.replicate 8 0) = .error .TruncatedFrame
  ∧ ClockSyncResponse.decode (List.replicate 24 0) = .error .TruncatedFrame :=
  ⟨(claim_C6 (List.replicate 64 0)).1 (by simp),
   (claim_C6 (List.replicate 68 0)).2.1 (by simp),
   (claim_C6 (List.replicate 8 0)).2.2.1 (by simp),
   (claim_C6 (List.replicate 24 0)).2.2.2 (by simp)⟩

/-- Counterexample to claim C1 as stated: a 9-byte buffer whose leading
byte is 0x01 (not the ClockSyncRequest tag 0x03) decodes successfully
instead of failing with `TypeMismatch`. -/
theorem claim_C1_counterexample :
    ClockSyncRequest.decode (0x01 :: List.replicate 8 0) = .ok { t1 := 0 }
  ∧ ClockSyncRequest.decode (0x01 :: List.replicate 8 0) ≠
      .error DecodeError.TypeMismatch := by
  constructor <;> decide

/-- Claim C1 as amended: only the Command and CommandAck decoders check
the leading byte (failing with `TypeMismatch` on a mismatch once the
length check passes); the ClockSyncRequest and ClockSyncResponse
decoders ignore the leading byte and succeed on any buffer of
sufficient length. -/
theorem claim_C1_amended (data : List Nat) :
    (65 ≤ data.length → data.headD 0 ≠ 0x01 →
      TwistWithLatency.decode data = .error .TypeMismatch)
  ∧ (69 ≤ data.length → data.headD 0 ≠ 0x02 →
      TwistAck.decode data = .error .TypeMismatch)
  ∧ (9 ≤ data.length → ∃ r, ClockSyncRequest.decode data = .ok r)
  ∧ (25 ≤ data.length → ∃ r, ClockSyncResponse.decode data = .ok r) := by
  refine ⟨fun h ht => ?_, fun h ht => ?_, fun h => ?_, fun h => ?_⟩
  · have h' : ¬ (data.length < 65) := by omega
    simp only [List.headD_eq_head?_getD] at ht
    simp [TwistWithLatency.decode, TWIST_BROWSER_SIZE, h', ht]
  · have h' : ¬ (data.length < 69) := by omega
    simp only [List.headD_eq_head?_getD] at ht
    simp [TwistAck.decode, TWIST_ACK_PYTHON_SIZE, h', ht]
  · have h' : ¬ (data.length < 9) := by omega
    refine ⟨{ t1 := leVal 8 (data.drop 1) }, ?_⟩
    simp only [ClockSyncRequest.decode, CLOCK_SYNC_REQUEST_SIZE]
    rw [if_neg h']
  · have h' : ¬ (data.length < 25) := by omega
    refine ⟨{ t1 := leVal 8 (data.drop 1), t2 := leVal 8 ((data.drop 1).drop 8),
              t3 := leVal 8 (((data.drop 1).drop 8).drop 8) }, ?_⟩
    simp only [ClockSyncResponse.decode, CLOCK_SYNC_RESPONSE_SIZE]
    rw [if_neg h']

/-- Witness for the amended C1 at concrete buffers: a wrong-tag Command
frame, a wrong-tag CommandAck frame, and sync frames with arbitrary
leading bytes. -/
theorem claim_C1_witness :
    TwistWithLatency.decode (0x02 :: List.replicate 64 0) = .error .TypeMismatch
  ∧ TwistAck.decode (0x01 :: List.replicate 68 0) = .error .TypeMismatch
  ∧ (∃ r, ClockSyncRequest.decode (0x07 :: List.replicate 8 0) = .ok r)
  ∧ (∃ r, ClockSyncResponse.decode (0x09 :: List.replicate 24 0) = .ok r) :=
  ⟨(claim_C1_amended (0x02 :: List.replicate 64 0)).1 (by simp) (by simp),
   (claim_C1_amended (0x01 :: List.replicate 68 0)).2.1 (by simp) (by simp),
   (claim_C1_amended (0x07 :: List.replicate 8 0)).2.2.1 (by simp),
   (claim_C1_amended (0x09 :: List.replicate 24 0)).2.2.2 (by simp)⟩

/-- Claim C7: each `ClockSync.process` call computes this sample's
`rtt = (t4 - t1) - (t3 - t2)` and `offset = ((t2 - t1) + (t3 - t4)) / 2`
and returns the pair (newly stored median offset, this sample's raw
rtt); on `t1=1000, t2=1010, t3=1012, t4=1005` the sample has `rtt = 3`
and `offset = 8.5`. -/
theorem claim_C7 :
    (∀ (s : ClockSync) (t1 t2 t3 t4 : Int),
        (s.process t1 t2 t3 t4).2 =
          (((s.process t1 t2 t3 t4).1).offset, rttSample t1 t2 t3 t4))
  ∧ (∀ t1 t2 t3 t4 : Int, rttSample t1 t2 t3 t4 = (t4 - t1) - (t3 - t2))
  ∧ (∀ t1 t2 t3 t4 : Int,
        offsetSample t1 t2 t3 t4 =
          (((t2 : ℚ) - (t1 : ℚ)) + ((t3 : ℚ) - (t4 : ℚ))) / 2)
  ∧ rttSample 1000 1010 1012 1005 = 3
  ∧ offsetSample 1000 1010 1012 1005 = 8.5 := by
  refine ⟨fun s t1 t2 t3 t4 => rfl, fun t1 t2 t3 t4 => rfl, fun t1 t2 t3 t4 => ?_,
    by decide, by norm_num [offsetSample]⟩
  simp only [offsetSample]
  push_cast
  ring

/-- Counterexample to claim C2 as stated: two samples with offsets 2
and 8 leave `current_offset = 8`, the upper-middle element of the
sorted copy, not the lower-middle element 2 the claim requires for an
even sample count. -/
theorem claim_C2_counterexample :
    (runSync (ClockSync.init 10) [(0, 2, 2, 0), (0, 8, 8, 0)]).offsets = [2, 8]
  ∧ (runSync (ClockSync.init 10) [(0, 2, 2, 0), (0, 8, 8, 0)]).offset = 8
  ∧ specLowerMedian (runSync (ClockSync.init 10) [(0, 2, 2, 0), (0, 8, 8, 0)]).offsets = 2
  ∧ (runSync (ClockSync.init 10) [(0, 2, 2, 0), (0, 8, 8, 0)]).offset ≠
      specLowerMedian (runSync (ClockSync.init 10) [(0, 2, 2, 0), (0, 8, 8, 0)]).offsets := by
  refine ⟨?_, ?_, ?_, ?_⟩ <;>
    norm_num [runSync, ClockSync.process, ClockSync.init, offsetSample, rttSample,
      specLowerMedian, List.insertionSort, List.orderedInsert]

/-- Claim C2 as amended: after every `ClockSync.process` call the
stored `offset` and `rtt` are the element at index `len / 2` of a
sorted copy of the retained offset and rtt samples — integer-index
selection, the upper-middle element for even counts, not an average.
The concrete conjuncts replay the spec's median-smoothing scenario on a
capacity-5 synchronizer: five samples with offsets 2, 6, 4, 10, 8 give
median 6 (and already 6 after the first four, an even count), and a
sixth sample evicts the first, moving the median to 8. -/
theorem claim_C2_amended :
    (∀ (s : ClockSync) (t1 t2 t3 t4 : Int),
        ((s.process t1 t2 t3 t4).1).offset = medianQ ((s.process t1 t2 t3 t4).1).offsets
      ∧ ((s.process t1 t2 t3 t4).1).rtt = medianI ((s.process t1 t2 t3 t4).1).rtts)
  ∧ (runSync (ClockSync.init 5)
        [(0, 2, 2, 0), (0, 6, 6, 0), (0, 4, 4, 0), (0, 10, 10, 0)]).offset = 6
  ∧ (runSync (ClockSync.init 5)
        [(0, 2, 2, 0), (0, 6, 6, 0), (0, 4, 4, 0), (0, 10, 10, 0), (0, 8, 8, 0)]).offset = 6
  ∧ (runSync (ClockSync.init 5)
        [(0, 2, 2, 0), (0, 6, 6, 0), (0, 4, 4, 0), (0, 10, 10, 0), (0, 8, 8, 0),
         (0, 12, 12, 0)]).offset = 8 := by
  refine ⟨fun s t1 t2 t3 t4 => ⟨rfl, rfl⟩, ?_, ?_, ?_⟩ <;>
    norm_num [runSync, ClockSync.process, ClockSync.init, offsetSample, rttSample,
      List.insertionSort, List.orderedInsert]

/-- Claim C8: with the default capacity 10, `synced` is false for 0-2
`process` calls, true from the 3rd call onward, and once true never
reverts under further calls. -/
theorem claim_C8 (calls : List (Int × Int × Int × Int)) :
    ((runSync (ClockSync.init 10) calls).synced = decide (3 ≤ calls.length))
  ∧ ∀ more, (runSync (ClockSync.init 10) calls).synced = true →
      (runSync (ClockSync.init 10) (calls ++ more)).synced = true := by
  have hlen : ∀ cs : List (Int × Int × Int × Int),
      (runSync (ClockSync.init 10) cs).offsets.length = min cs.length 10 := by
    intro cs
    have h := runSync_offsets_length cs (ClockSync.init 10) (by simp [ClockSync.init])
    simpa [ClockSync.init] using h
  constructor
  · rw [ClockSync.synced, hlen, decide_eq_decide]
    omega
  · intro more h
    rw [ClockSync.synced, hlen] at h ⊢
    rw [decide_eq_true_eq] at h ⊢
    simp only [List.length_append]
    omega

/-- Witness for C8: three samples make `synced` true, and it stays true
after a fourth. -/
theorem claim_C8_witness :
    (runSync (ClockSync.init 10)
      ([(0, 0, 0, 0), (0, 0, 0, 0), (0, 0, 0, 0)] ++ [(5, 5, 5, 5)])).synced = true :=
  (claim_C8 [(0, 0, 0, 0), (0, 0, 0, 0), (0, 0, 0, 0)]).2 [(5, 5, 5, 5)]
    (by rw [(claim_C8 [(0, 0, 0, 0), (0, 0, 0, 0), (0, 0, 0, 0)]).1]; decide)

/-- Claim C4: a Command with arbitrary in-range message id, origin-send
timestamp and velocity bit patterns round-trips through encode/decode;
all other timestamp fields of the result are at their zero default, as
they are in the encoded value. -/
theorem claim_C4 (msg t1 lx ly lz ax ay az : Nat)
    (h1 : msg < U64) (h2 : t1 < U64) (h3 : lx < U64) (h4 : ly < U64)
    (h5 : lz < U64) (h6 : ax < U64) (h7 : ay < U64) (h8 : az < U64) :
    TwistWithLatency.decode (TwistWithLatency.encode
      { linear_x := lx, linear_y := ly, linear_z := lz, angular_x := ax,
        angular_y := ay, angular_z := az, message_id := msg,
        timestamps := { t1_browser_send := t1 } }) =
    .ok { linear_x := lx, linear_y := ly, linear_z := lz, angular_x := ax,
          angular_y := ay, angular_z := az, message_id := msg,
          timestamps := { t1_browser_send := t1 } } := by
  simp [TwistWithLatency.decode, TwistWithLatency.encode, TWIST_BROWSER_SIZE,
    TWIST_RELAY_SIZE, h1, h2, h3, h4, h5, h6, h7, h8]

/-- Witness for C4 at a concrete Command. -/
theorem claim_C4_witness :
    TwistWithLatency.decode (TwistWithLatency.encode
      { linear_x := 1, linear_y := 2, linear_z := 3, angular_x := 4,
        angular_y := 5, angular_z := 6, message_id := 42,
        timestamps := { t1_browser_send := 99 } }) =
    .ok { linear_x := 1, linear_y := 2, linear_z := 3, angular_x := 4,
          angular_y := 5, angular_z := 6, message_id := 42,
          timestamps := { t1_browser_send := 99 } } :=
  claim_C4 42 99 1 2 3 4 5 6 (by norm_num [U64]) (by norm_num [U64]) (by norm_num [U64])
    (by norm_num [U64]) (by norm_num [U64]) (by norm_num [U64]) (by norm_num [U64])
    (by norm_num [U64])

/-- Claim C3 fails on the code: decoding the 69-byte encoding of the
self-test acknowledgment `ackSample` (message id 7, t1 1000, ...)
returns every field shifted one wire slot late — `t1_browser_send`
comes back as the message id 7, `t2_relay_rx` as 1000, ...,
`t4_relay_ack_rx` as the 30 written into the `encode_us` slot — so the
round trip recovers only `message_id`.  The 77-byte decode does recover
the appended `t5_relay_ack_tx`. -/
theorem claim_C3_code_bug :
    TwistAck.decode (TwistAck.encode ackSample) =
      .ok { message_id := 7,
            timestamps := { t1_browser_send := 7, t2_relay_rx := 1000,
                            t3_relay_tx := 1005, t3_python_rx := 1006,
                            t4_python_ack := 1010, python_decode_us := 1015,
                            python_process_us := 50, python_encode_us := 100,
                            t4_relay_ack_rx := 30, t5_relay_ack_tx := 0 } }
  ∧ TwistAck.decode (TwistAck.encode ackSample) ≠ .ok ackSample
  ∧ (TwistAck.encode ackSample).length = 69
  ∧ TwistAck.decode (TwistAck.encode ackSample ++ leBytes 8 9999) =
      .ok { message_id := 7,
            timestamps := { t1_browser_send := 7, t2_relay_rx := 1000,
                            t3_relay_tx := 1005, t3_python_rx := 1006,
                            t4_python_ack := 1010, python_decode_us := 1015,
                            python_process_us := 50, python_encode_us := 100,
                            t4_relay_ack_rx := 30, t5_relay_ack_tx := 9999 } } :=
  ⟨by decide, by decide, by decide, by decide⟩

/-- Claim C5: a Command buffer with valid tag and length at least 81
has `t2_relay_rx`/`t3_relay_tx` parsed from bytes 65..80; one with
length in [65, 81) decodes as the base-only layout — the result equals
the decode of its first 65 bytes and leaves both extension fields at
their zero default. -/
theorem claim_C5 (data : List Nat) (h65 : 65 ≤ data.length)
    (htag : data.headD 0 = 0x01) :
    (81 ≤ data.length →
      (TwistWithLatency.decode data).map
          (fun c => (c.timestamps.t2_relay_rx, c.timestamps.t3_relay_tx)) =
        .ok (leVal 8 (data.drop 65), leVal 8 (data.drop 73)))
  ∧ (data.length < 81 →
      TwistWithLatency.decode data = TwistWithLatency.decode (data.take 65)
    ∧ (TwistWithLatency.decode data).map
          (fun c => (c.timestamps.t2_relay_rx, c.timestamps.t3_relay_tx)) =
        .ok (0, 0)) := by
  have h' : ¬ (data.length < 65) := by omega
  have htag' : data.head?.getD 0 = 1 := by simpa using htag
  constructor
  · intro h81
    simp [TwistWithLatency.decode, TWIST_BROWSER_SIZE, TWIST_RELAY_SIZE, h', htag', h81,
      List.drop_drop, Except.map]
  · intro h81
    have h81' : ¬ (81 ≤ data.length) := by omega
    constructor
    · have hmin : min 65 data.length = 65 := by omega
      have htake : (data.take 65).head?.getD 0 = 1 := by
        have h0 := headD_take 65 data 0 (by omega)
        simp only [List.headD_eq_head?_getD] at h0
        rw [h0]
        exact htag'
      simp [TwistWithLatency.decode, TWIST_BROWSER_SIZE, TWIST_RELAY_SIZE, h', htag',
        h81', hmin, htake, List.drop_drop, List.drop_take]
    · simp [TwistWithLatency.decode, TWIST_BROWSER_SIZE, TWIST_RELAY_SIZE, h', htag',
        h81', Except.map]

/-- Witness for C5: an 81-byte frame carrying the extension values
11 and 12, and a 70-byte frame equal in decode to its 65-byte front. -/
theorem claim_C5_witness :
    ((TwistWithLatency.decode wd81).map
        (fun c => (c.timestamps.t2_relay_rx, c.timestamps.t3_relay_tx)) = .ok (11, 12))
  ∧ TwistWithLatency.decode wd70 = TwistWithLatency.decode (wd70.take 65) :=
  ⟨((claim_C5 wd81 (by decide) (by decide)).1 (by decide)).trans (by decide),
   ((claim_C5 wd70 (by decide) (by decide)).2 (by decide)).1⟩

/-- Claim C9: `Stats.record` appends the three durations and counts the
frame unconditionally, appends the latency only when non-negative, each
of the four capacity-`W` sequences keeps exactly the suffix of its
appended entries of length at most `W`, and the average of an empty
sequence is zero. -/
theorem claim_C9 :
    (∀ (s : Stats) (lat d p e : ℚ),
        (s.record lat d p e).rx_count = s.rx_count + 1
      ∧ (s.record lat d p e).decode_us = pushWin s.window s.decode_us d
      ∧ (s.record lat d p e).process_us = pushWin s.window s.process_us p
      ∧ (s.record lat d p e).encode_us = pushWin s.window s.encode_us e
      ∧ (s.record lat d p e).latencies =
          (if 0 ≤ lat then pushWin s.window s.latencies lat else s.latencies))
  ∧ (∀ (W : Nat) (recs : List (ℚ × ℚ × ℚ × ℚ)),
        (runStats (Stats.init W) recs).rx_count = recs.length
      ∧ (runStats (Stats.init W) recs).decode_us = lastN W (recs.map fun r => r.2.1)
      ∧ (runStats (Stats.init W) recs).process_us = lastN W (recs.map fun r => r.2.2.1)
      ∧ (runStats (Stats.init W) recs).encode_us = lastN W (recs.map fun r => r.2.2.2)
      ∧ (runStats (Stats.init W) recs).latencies =
          lastN W ((recs.map fun r => r.1).filter fun q => decide (0 ≤ q)))
  ∧ Stats.avg [] = 0 := by
  refine ⟨fun s lat d p e => ⟨rfl, rfl, rfl, rfl, rfl⟩, fun W recs => ?_, by simp [Stats.avg]⟩
  refine ⟨?_, ?_, ?_, ?_, ?_⟩
  · rw [runStats_rx_count]
    simp [Stats.init]
  · rw [runStats_decode_us]
    exact foldl_pushWin W _
  · rw [runStats_process_us]
    exact foldl_pushWin W _
  · rw [runStats_encode_us]
    exact foldl_pushWin W _
  · rw [runStats_latencies]
    exact foldl_pushWin W _

/-- Claim C10 fails on the code in its decode half: encode does write
the reserved slot (bytes 61..68 of the 69-byte frame) as zero whatever
`t4_relay_ack_rx` holds — so two acknowledgments differing only there
encode identically — but decode assigns `t4_relay_ack_rx` from
`values[9]`, the u32 `encode_us` slot at bytes 57..60, and discards the
reserved slot: on `ackRawBuf` (bytes 57..60 = 9, bytes 61..68 = 5555)
the decoded `t4_relay_ack_rx` is 9, not 5555. -/
theorem claim_C10_code_bug :
    (∀ (a : TwistAck) (v : Nat),
        TwistAck.encode { a with timestamps := { a.timestamps with t4_relay_ack_rx := v } } =
          TwistAck.encode a)
  ∧ (∀ a : TwistAck, (TwistAck.encode a).length = 69)
  ∧ (∀ a : TwistAck, (TwistAck.encode a).drop 61 = leBytes 8 0)
  ∧ (TwistAck.decode ackRawBuf).map (fun c => c.timestamps.t4_relay_ack_rx) = .ok 9
  ∧ leVal 8 (ackRawBuf.drop 61) = 5555 := by
  refine ⟨fun a v => rfl, fun a => by simp [TwistAck.encode], fun a => ?_,
    by decide, by decide⟩
  have hpre : TwistAck.encode a =
      (0x02 :: (leBytes 8 a.message_id ++ (leBytes 8 a.timestamps.t1_browser_send ++
       (leBytes 8 a.timestamps.t2_relay_rx ++ (leBytes 8 a.timestamps.t3_relay_tx ++
       (leBytes 8 a.timestamps.t3_python_rx ++ (leBytes 8 a.timestamps.t4_python_ack ++
       (leBytes 4 a.timestamps.python_decode_us ++ (leBytes 4 a.timestamps.python_process_us ++
        leBytes 4 a.timestamps.python_encode_us))))))))) ++ leBytes 8 0 := by
    simp [TwistAck.encode, List.append_assoc]
  rw [hpre]
  exact List.drop_left' (by simp)

end TwistWS
